import Mathlib

/-!
Shallow embedding of the Syscoin asset consensus layer (`asset.cpp`): the
script codec (`DecodeAssetScript`), the record codec
(`CAsset::Serialize` / `CAsset::UnserializeFromData`), the expiration policy
(`GetAssetExpiration`, `GetAsset`) and the life-cycle validator
(`CheckAssetInputs`).  Byte strings (`std::vector<unsigned char>`) are
modelled as `List Nat`; `uint256` hashes as `Nat`.
-/

namespace SyscoinAsset

/-- Modelled from the spec: the script opcode numeric values come from the
script-interpreter header, which is not part of the sources; only their
relative ranges matter (`OP_1 .. OP_16` are the small-integer pushes, the
drop opcodes lie above the push range). -/
def OP_1 : Nat := 81

def OP_16 : Nat := 96

def OP_PUSHDATA4 : Nat := 78

def OP_DROP : Nat := 117

def OP_2DROP : Nat := 109

/-- Modelled from the spec: the protocol tag and sub-operation tags
(`OP_SYSCOIN_ASSET`, `OP_ASSET_*`) are defined in a header that is not part
of the sources; they are distinct small integers in the `EncodeOP_N` range. -/
def OP_SYSCOIN_ASSET : Nat := 6

def OP_ASSET_ACTIVATE : Nat := 1

def OP_ASSET_MINT : Nat := 2

def OP_ASSET_UPDATE : Nat := 3

def OP_ASSET_TRANSFER : Nat := 4

/-- Modelled from the spec: the extended-format transaction version constant
(`SYSCOIN_TX_VERSION`) is declared outside the sources. -/
def SYSCOIN_TX_VERSION : Nat := 29696

/-- Modelled from the spec: field-length bounds (`MAX_ID_LENGTH`,
`MAX_NAME_LENGTH`, `MAX_VALUE_LENGTH`) are declared outside the sources;
the RPC help text gives name 20 characters max. -/
def MAX_ID_LENGTH : Nat := 20

def MAX_NAME_LENGTH : Nat := 256

def MAX_VALUE_LENGTH : Nat := 512

/-- Modelled from the spec: the alias capability flag bit
(`ACCEPT_TRANSFER_ASSETS`, from the alias header, not in the sources). -/
def ACCEPT_TRANSFER_ASSETS : Nat := 2

/-- `CScript::DecodeOP_N`: `OP_0` decodes to 0, `OP_N` to `N`. -/
def decodeOP_N (opcode : Nat) : Nat :=
  if opcode = 0 then 0 else opcode - 80

/-- `IsAssetOp` (asset.cpp:29-34). -/
def IsAssetOp (op : Nat) : Bool :=
  op == OP_ASSET_ACTIVATE
    || op == OP_ASSET_MINT
    || op == OP_ASSET_UPDATE
    || op == OP_ASSET_TRANSFER

/-- The asset record `CAsset`, with the fields used by asset.cpp. -/
structure CAsset where
  vchAsset : List Nat
  vchName : List Nat
  vchPubData : List Nat
  sCategory : List Nat
  vchAlias : List Nat
  vchLinkAlias : List Nat
  nHeight : Nat
  txHash : Nat
deriving Repr, DecidableEq

/-- `CAsset::SetNull`: the default/cleared record. -/
def nullAsset : CAsset :=
  { vchAsset := [], vchName := [], vchPubData := [], sCategory := []
    vchAlias := [], vchLinkAlias := [], nHeight := 0, txHash := 0 }

/-! ## Record codec

`CAsset::Serialize` (asset.cpp:95-100) streams the record through
`CDataStream`.  The field encoding itself lives in the serialization header
(not in the sources); modelled from the spec (§6 record wire format): each
byte-string field canonically as a length followed by its bytes, in the
fixed data-model field order, then the height and transaction hash. -/

/-- One length-prefixed byte-string field. -/
def serVch (v : List Nat) : List Nat := v.length :: v

/-- `CAsset::Serialize`: canonical encoding of the record. -/
def SerializeAsset (a : CAsset) : List Nat :=
  serVch a.vchAsset ++ serVch a.vchName ++ serVch a.vchPubData ++
    serVch a.sCategory ++ serVch a.vchAlias ++ serVch a.vchLinkAlias ++
    [a.nHeight, a.txHash]

/-- Read one length-prefixed byte-string field. -/
def parseVch : List Nat → Option (List Nat × List Nat)
  | [] => none
  | n :: rest =>
      if n ≤ rest.length then some (rest.take n, rest.drop n) else none

/-- Read one scalar field. -/
def parseNatFld : List Nat → Option (Nat × List Nat)
  | [] => none
  | n :: rest => some (n, rest)

/-- The stream read `dsAsset >> *this`: parse a record off the front of the
byte stream, returning the remainder (the stream may hold trailing bytes). -/
def ParseAsset (bytes : List Nat) : Option (CAsset × List Nat) :=
  (parseVch bytes).bind fun p1 =>
  (parseVch p1.2).bind fun p2 =>
  (parseVch p2.2).bind fun p3 =>
  (parseVch p3.2).bind fun p4 =>
  (parseVch p4.2).bind fun p5 =>
  (parseVch p5.2).bind fun p6 =>
  (parseNatFld p6.2).bind fun p7 =>
  (parseNatFld p7.2).bind fun p8 =>
  some ({ vchAsset := p1.1, vchName := p2.1, vchPubData := p3.1
          sCategory := p4.1, vchAlias := p5.1, vchLinkAlias := p6.1
          nHeight := p7.1, txHash := p8.1 }, p8.2)

/-- `CAsset::UnserializeFromData` (asset.cpp:59-79): deserialize, then
re-serialize the parsed record, hash the re-serialization and compare the
result to the claimed hash; on mismatch (or parse failure) the record is
nulled and failure is reported.  The hash function (SHA-256d plus hex
formatting) is external to the sources, so it is passed in. -/
def UnserializeFromData (hashFn : List Nat → List Nat)
    (vchData vchHash : List Nat) : Option CAsset :=
  match ParseAsset vchData with
  | none => none
  | some (a, _) =>
      if hashFn (SerializeAsset a) = vchHash then some a else none

/-! ## Script codec (`DecodeAssetScript`, asset.cpp:276-316)

A script is modelled at `GetOp` granularity: a list of tokens, each an
opcode with the bytes it pushes (empty for non-push opcodes).  `GetOp`
fails exactly at end of script. -/

structure ScriptTok where
  code : Nat
  pushData : List Nat
deriving Repr, DecidableEq

/-- The argument-gathering loop of `DecodeAssetScript` (asset.cpp:293-306):
collect pushed tokens until a drop opcode terminates the vector; a
non-push, non-drop opcode or end of script is a decode failure. -/
def decodeArgsLoop : List ScriptTok → List (List Nat) →
    Option (List (List Nat) × List ScriptTok)
  | [], _ => none
  | t :: rest, acc =>
      if t.code = OP_DROP ∨ t.code = OP_2DROP then some (acc, rest)
      else if t.code ≤ OP_PUSHDATA4 then
        decodeArgsLoop rest (acc ++ [t.pushData])
      else none

/-- The trailing-drop consumption (asset.cpp:308-314): move past any further
drop opcodes, leaving the cursor at the first token of the remaining spend
condition. -/
def skipDrops : List ScriptTok → List ScriptTok
  | [] => []
  | t :: rest =>
      if t.code = OP_DROP ∨ t.code = OP_2DROP then skipDrops rest
      else t :: rest

/-- `DecodeAssetScript` (asset.cpp:276-316): two small-integer pushes select
the protocol and the sub-operation, then the argument vector runs to a drop
terminator.  Returns the operation, the argument vector and the remaining
script, or `none` ("not this protocol").  The embedding is a total
function: no input can make it throw. -/
def DecodeAssetScript (script : List ScriptTok) :
    Option (Nat × List (List Nat) × List ScriptTok) :=
  match script with
  | [] => none
  | t1 :: rest1 =>
      if t1.code < OP_1 ∨ OP_16 < t1.code then none
      else if decodeOP_N t1.code ≠ OP_SYSCOIN_ASSET then none
      else
        match rest1 with
        | [] => none
        | t2 :: rest2 =>
            if t2.code < OP_1 ∨ OP_16 < t2.code then none
            else if ¬ (IsAssetOp (decodeOP_N t2.code)) then none
            else
              match decodeArgsLoop rest2 [] with
              | none => none
              | some (vvch, rest) =>
                  some (decodeOP_N t2.code, vvch, skipDrops rest)

/-! ## Chain environment, identity registry and the asset store -/

/-- The slice of the external alias identity record that this core reads
(`CAliasIndex.nAcceptTransferFlags`). -/
structure CAliasIndex where
  nAcceptTransferFlags : Nat
deriving Repr, DecidableEq

/-- Read-only context supplied by the host runtime: chain median time, the
identity registry reads (`ReadAliasUnprunable` folded with its `IsNull`
check, and `GetAlias`), and the payload hash function. -/
structure ChainEnv where
  medianTimePast : Nat
  aliasUnprunable : List Nat → Option Nat
  aliasIndex : List Nat → Option CAliasIndex
  hashFn : List Nat → List Nat

/-- The asset database: current records (`asseti`), retained previous
versions (`assetp`, `ReadLastAsset`), per-id settlement locks (`ReadISLock`
/ `EraseISLock`), and the history tables keyed by transaction hash (the
asset index history and the alias transaction history). -/
structure AssetDB where
  assets : List Nat → Option CAsset
  lastAssets : List Nat → Option CAsset
  isLocks : List Nat → Bool
  assetHist : List Nat
  aliasHist : List Nat

/-- `GetAssetExpiration` (asset.cpp:36-43): the owning alias's unprunable
expiration when the registry holds a non-null one, else one tick past the
current median time. -/
def GetAssetExpiration (env : ChainEnv) (asset : CAsset) : Nat :=
  match env.aliasUnprunable asset.vchAlias with
  | some t => t
  | none => env.medianTimePast + 1

/-- `GetAsset` (asset.cpp:235-244): read the stored record, reporting it
absent (nulled) once median time reaches its derived expiration. -/
def GetAsset (env : ChainEnv) (db : AssetDB) (id : List Nat) : Option CAsset :=
  match db.assets id with
  | none => none
  | some a =>
      if env.medianTimePast ≥ GetAssetExpiration env a then none else some a

/-! ## Life-cycle validator (`CheckAssetInputs`, asset.cpp:333-584) -/

/-- The candidate transaction, at the interface this core reads:
version, hash, coinbase flag, and the auxiliary payload located by
`GetSyscoinData` (the serialized record and the script-carried commitment
hash). -/
structure CTransaction where
  nVersion : Nat
  txHash : Nat
  isCoinBase : Bool
  syscoinData : Option (List Nat × List Nat)
deriving Repr, DecidableEq

/-- Outcome of `CheckAssetInputs`, separating the C++ result channel
(`return error(...)` = consensus-fatal false, `return true` with an error
message = soft business failure, `return true` silently = skipped /
idempotent / applied). -/
inductive CheckResult where
  | fatal (code : Nat)
  | softErr (code : Nat)
  | skip
  | idempotent
  | applied (a : CAsset)
deriving Repr, DecidableEq

/-- The byte string `"assets"`, the reserved category namespace. -/
def assetsLit : List Nat := [97, 115, 115, 101, 116, 115]

/-- `boost::algorithm::starts_with(category, "assets")`. -/
def startsWithAssets (v : List Nat) : Bool := assetsLit.isPrefixOf v

/-- ASCII lower-casing of one byte, for the case-insensitive category
check. -/
def lowerByte (b : Nat) : Nat := if 65 ≤ b ∧ b ≤ 90 then b + 32 else b

/-- `boost::algorithm::istarts_with(category, "assets")`. -/
def istartsWithAssets (v : List Nat) : Bool :=
  assetsLit.isPrefixOf (v.map lowerByte)

/-- Modelled from the spec: `CAssetDB::WriteAsset` is only declared here
(its body is in the store header, not in the sources).  Per §4.3/§4.5 the
put records the current version under the asset id, appends a history entry
keyed by the producing transaction hash, and marks the settlement lock on a
strict-mode (pre-confirmation) acceptance; the previous version passed
alongside is retained for the mirror. -/
def WriteAsset (db : AssetDB) (cur _prev : CAsset) (_op : Nat)
    (fJustCheck : Bool) : AssetDB :=
  { db with
    assets := fun k => if k = cur.vchAsset then some cur else db.assets k
    assetHist := cur.txHash :: db.assetHist
    isLocks := fun k =>
      if k = cur.vchAsset then (fJustCheck || db.isLocks k) else db.isLocks k }

/-- Lines 514-555 of `CheckAssetInputs`: the per-operation record fixup —
inheritance-on-omission and name carry-forward for update/transfer, the
ownership change and target-alias capability check for transfer, the
uniform owner check, and the already-exists check for activate (including
the read-into-the-candidate quirk of `GetAsset` nulling the record when the
stored one is expired).  Returns the business failure or the fixed-up
record. -/
def AssetFixup (env : ChainEnv) (db : AssetDB) (op : Nat) (fJustCheck : Bool)
    (theAsset dbAsset : CAsset) : CheckResult ⊕ CAsset :=
  if op ≠ OP_ASSET_ACTIVATE then
    match
      (if op = OP_ASSET_TRANSFER then
        match env.aliasIndex theAsset.vchLinkAlias with
        | none => Sum.inl (CheckResult.softErr 2024)
        | some toAlias =>
            if Nat.land toAlias.nAcceptTransferFlags ACCEPT_TRANSFER_ASSETS
                = 0 then
              Sum.inl (CheckResult.softErr 2025)
            else
              Sum.inr
                { theAsset with
                  vchPubData :=
                    if theAsset.vchPubData = [] then dbAsset.vchPubData
                    else theAsset.vchPubData
                  vchName := dbAsset.vchName
                  sCategory :=
                    if theAsset.sCategory = [] then dbAsset.sCategory
                    else theAsset.sCategory
                  vchAlias := theAsset.vchLinkAlias }
      else
        Sum.inr
          { theAsset with
            vchPubData :=
              if theAsset.vchPubData = [] then dbAsset.vchPubData
              else theAsset.vchPubData
            vchName := dbAsset.vchName
            sCategory :=
              if theAsset.sCategory = [] then dbAsset.sCategory
              else theAsset.sCategory } :
        CheckResult ⊕ CAsset) with
    | Sum.inl r => Sum.inl r
    | Sum.inr a2 =>
        if (op = OP_ASSET_UPDATE ∨ op = OP_ASSET_TRANSFER) ∧
            dbAsset.vchAlias ≠ a2.vchAlias then
          Sum.inl (CheckResult.softErr 2026)
        else Sum.inr a2
  else
    if fJustCheck then
      match db.assets theAsset.vchAsset with
      | some stored =>
          if env.medianTimePast ≥ GetAssetExpiration env stored then
            Sum.inr nullAsset
          else Sum.inl (CheckResult.softErr 2027)
      | none => Sum.inr theAsset
    else Sum.inr theAsset

/-- Lines 556-583 of `CheckAssetInputs`: append the owning identity's
activity history entry, clear the transient link alias, stamp the height
and transaction hash, and write the record.  (The history description from
`GetSyscoinTransactionDescription` is external to the sources; per the
spec every successful operation emits one.) -/
def FinishAsset (db : AssetDB) (tx : CTransaction) (op : Nat)
    (fJustCheck : Bool) (nHeight : Nat) (dontaddtodb : Bool)
    (a2 dbAsset : CAsset) : CheckResult × AssetDB :=
  (CheckResult.applied
      { a2 with vchLinkAlias := [], nHeight := nHeight, txHash := tx.txHash },
    if dontaddtodb then db
    else
      WriteAsset { db with aliasHist := tx.txHash :: db.aliasHist }
        { a2 with vchLinkAlias := [], nHeight := nHeight, txHash := tx.txHash }
        dbAsset op fJustCheck)

/-- Lines 514-583 of `CheckAssetInputs`: the record fixup followed, on
acceptance, by the stamped store write. -/
def CheckAssetPostDb (env : ChainEnv) (db : AssetDB) (tx : CTransaction)
    (op : Nat) (fJustCheck : Bool) (nHeight : Nat) (dontaddtodb : Bool)
    (theAsset dbAsset : CAsset) : CheckResult × AssetDB :=
  match AssetFixup env db op fJustCheck theAsset dbAsset with
  | Sum.inl r => (r, db)
  | Sum.inr a2 => FinishAsset db tx op fJustCheck nHeight dontaddtodb a2 dbAsset

/-- Lines 448-513 of `CheckAssetInputs`: read the stored record through
`GetAsset` (absent reads fail every operation but activate), then the
settlement-lock reconciliation and the height-ordering rule, then hand off
to the per-operation stage. -/
def CheckAssetDbStage (env : ChainEnv) (db : AssetDB) (tx : CTransaction)
    (op : Nat) (fJustCheck : Bool) (nHeight : Nat) (dontaddtodb : Bool)
    (theAsset : CAsset) : CheckResult × AssetDB :=
  match GetAsset env db theAsset.vchAsset with
  | none =>
      if op ≠ OP_ASSET_ACTIVATE then (CheckResult.softErr 2022, db)
      else
        CheckAssetPostDb env db tx op fJustCheck nHeight
          dontaddtodb theAsset nullAsset
  | some dbAsset =>
      if ¬fJustCheck ∧ db.isLocks theAsset.vchAsset then
                    if dbAsset.nHeight ≥ nHeight then
                      (CheckResult.softErr 2026, db)
                    else if dbAsset.txHash ≠ tx.txHash then
                      CheckAssetPostDb env
                        (if dontaddtodb then db
                         else
                           { db with
                             isLocks := fun k =>
                               if k = theAsset.vchAsset then false
                               else db.isLocks k
                             aliasHist :=
                               db.aliasHist.filter (fun h => h ≠ dbAsset.txHash)
                             assetHist :=
                               db.assetHist.filter (fun h => h ≠ dbAsset.txHash) })
                        tx op fJustCheck nHeight dontaddtodb theAsset
                        (if op ≠ OP_ASSET_ACTIVATE then
                          (db.lastAssets theAsset.vchAsset).getD nullAsset
                        else dbAsset)
                    else
                      (CheckResult.idempotent,
                        if dontaddtodb then db
                        else
                          { db with
                            lastAssets := fun k =>
                              if k = theAsset.vchAsset then some dbAsset
                              else db.lastAssets k
                            isLocks := fun k =>
                              if k = theAsset.vchAsset then false
                              else db.isLocks k })
      else if dbAsset.nHeight > nHeight then
        (CheckResult.softErr 2026, db)
      else
        CheckAssetPostDb env db tx op fJustCheck nHeight
          dontaddtodb theAsset dbAsset

/-- Lines 363-440 of `CheckAssetInputs`: the strict-mode argument-vector
and hash-commitment checks, the uniform alias-input check, and the
strict-mode per-operation structural checks, then the store stage. -/
def CheckAssetChecksStage (env : ChainEnv) (db : AssetDB) (tx : CTransaction)
    (op : Nat) (vvchArgs vvchAliasArgs : List (List Nat)) (fJustCheck : Bool)
    (nHeight : Nat) (dontaddtodb : Bool) (theAsset : CAsset)
    (vchHash : List Nat) : CheckResult × AssetDB :=
  if fJustCheck ∧ vvchArgs.length ≠ 1 then
    (CheckResult.fatal 2002, db)
  else if fJustCheck ∧ vchHash ≠ vvchArgs.getD 0 [] then
    (CheckResult.softErr 2003, db)
  else if theAsset.vchAlias ≠ vvchAliasArgs.getD 0 [] then
    (if fJustCheck then (CheckResult.fatal 4003, db)
     else (CheckResult.softErr 4003, db))
  else if fJustCheck ∧ theAsset.sCategory.length > MAX_NAME_LENGTH then
    (CheckResult.fatal 2005, db)
  else if fJustCheck ∧ theAsset.vchPubData.length > MAX_VALUE_LENGTH then
    (CheckResult.fatal 2007, db)
  else if fJustCheck ∧ op = OP_ASSET_ACTIVATE ∧
      theAsset.vchLinkAlias ≠ [] then
    (CheckResult.fatal 2010, db)
  else if fJustCheck ∧ op = OP_ASSET_ACTIVATE ∧
      (theAsset.vchName.length > MAX_ID_LENGTH ∨ theAsset.vchName = []) then
    (CheckResult.fatal 2012, db)
  else if fJustCheck ∧ op = OP_ASSET_ACTIVATE ∧
      ¬ (startsWithAssets theAsset.sCategory) then
    (CheckResult.softErr 2013, db)
  else if fJustCheck ∧ op = OP_ASSET_UPDATE ∧ theAsset.vchName ≠ [] then
    (CheckResult.fatal 2015, db)
  else if fJustCheck ∧ op = OP_ASSET_UPDATE ∧
      0 < theAsset.sCategory.length ∧
      ¬ (istartsWithAssets theAsset.sCategory) then
    (CheckResult.softErr 2017, db)
  else if fJustCheck ∧ op ≠ OP_ASSET_ACTIVATE ∧
      op ≠ OP_ASSET_UPDATE ∧ op ≠ OP_ASSET_TRANSFER then
    (CheckResult.fatal 2021, db)
  else
    CheckAssetDbStage env db tx op fJustCheck nHeight dontaddtodb theAsset

/-- `CheckAssetInputs` (asset.cpp:333-584): the coinbase skip, the
transaction-version gate, payload extraction and deserialization, then the
staged checks.  Store-write failures in the C++ (error codes 1096/2028)
cannot occur in the model, where store operations are total. -/
def CheckAssetInputs (env : ChainEnv) (db : AssetDB) (tx : CTransaction)
    (op : Nat) (vvchArgs vvchAliasArgs : List (List Nat)) (fJustCheck : Bool)
    (nHeight : Nat) (dontaddtodb : Bool) : CheckResult × AssetDB :=
  if tx.isCoinBase ∧ ¬fJustCheck ∧ ¬dontaddtodb then (CheckResult.skip, db)
  else if tx.nVersion ≠ SYSCOIN_TX_VERSION then (CheckResult.softErr 2000, db)
  else
    match tx.syscoinData with
    | none => (CheckResult.softErr 2001, db)
    | some (vchData, vchHash) =>
        match UnserializeFromData env.hashFn vchData vchHash with
        | none => (CheckResult.softErr 2001, db)
        | some theAsset =>
            CheckAssetChecksStage env db tx op vvchArgs vvchAliasArgs
              fJustCheck nHeight dontaddtodb theAsset vchHash

/-! ## Concrete instances used to exercise the definitions -/

/-- A chain context: median time 100, alias `[1]` leased until 1000, alias
`[2]` present and accepting asset transfers, and a constant payload hash. -/
def env1 : ChainEnv :=
  { medianTimePast := 100
    aliasUnprunable := fun a => if a = [1] then some 1000 else none
    aliasIndex := fun a => if a = [2] then some ⟨2⟩ else none
    hashFn := fun _ => [0] }

/-- A stored asset record: id `[9]`, name `[7]`, owner alias `[1]`, settled
at height 5 by transaction 111. -/
def dbRec1 : CAsset :=
  { vchAsset := [9], vchName := [7], vchPubData := [5], sCategory := []
    vchAlias := [1], vchLinkAlias := [], nHeight := 5, txHash := 111 }

/-- A store holding only `dbRec1`, with no lock and no previous version. -/
def db1 : AssetDB :=
  { assets := fun k => if k = [9] then some dbRec1 else none
    lastAssets := fun _ => none
    isLocks := fun _ => false
    assetHist := [], aliasHist := [] }

/-- An empty store. -/
def db0 : AssetDB :=
  { assets := fun _ => none, lastAssets := fun _ => none
    isLocks := fun _ => false, assetHist := [], aliasHist := [] }

/-- A transfer payload for asset `[9]`: owner `[1]`, link alias `[2]`. -/
def payload1 : CAsset :=
  { vchAsset := [9], vchName := [], vchPubData := [], sCategory := []
    vchAlias := [1], vchLinkAlias := [2], nHeight := 0, txHash := 0 }

/-- The transfer transaction carrying `payload1`, hash 222. -/
def tx1 : CTransaction :=
  { nVersion := SYSCOIN_TX_VERSION, txHash := 222, isCoinBase := false
    syscoinData := some (SerializeAsset payload1, [0]) }

/-- An update payload for asset `[9]`: empty name and category, new public
data `[42]`. -/
def payloadU : CAsset :=
  { vchAsset := [9], vchName := [], vchPubData := [42], sCategory := []
    vchAlias := [1], vchLinkAlias := [], nHeight := 0, txHash := 0 }

/-- The update transaction carrying `payloadU`, hash 333. -/
def txU : CTransaction :=
  { nVersion := SYSCOIN_TX_VERSION, txHash := 333, isCoinBase := false
    syscoinData := some (SerializeAsset payloadU, [0]) }

/-- An activate payload for a fresh asset `[8]` with a valid name and the
reserved category. -/
def payloadA : CAsset :=
  { vchAsset := [8], vchName := [3], vchPubData := [], sCategory := assetsLit
    vchAlias := [1], vchLinkAlias := [], nHeight := 0, txHash := 0 }

/-- The activate transaction carrying `payloadA`, hash 444. -/
def txA : CTransaction :=
  { nVersion := SYSCOIN_TX_VERSION, txHash := 444, isCoinBase := false
    syscoinData := some (SerializeAsset payloadA, [0]) }

/-- An activate payload with an empty name (otherwise well-formed). -/
def payloadBad : CAsset :=
  { vchAsset := [8], vchName := [], vchPubData := [], sCategory := assetsLit
    vchAlias := [1], vchLinkAlias := [], nHeight := 0, txHash := 0 }

/-- The activate transaction carrying `payloadBad`, hash 445. -/
def txBad : CTransaction :=
  { nVersion := SYSCOIN_TX_VERSION, txHash := 445, isCoinBase := false
    syscoinData := some (SerializeAsset payloadBad, [0]) }

/-- Store with the asset settled at height 10 by transaction 111 under an
unresolved settlement lock (same height as the candidate below). -/
def db3 : AssetDB :=
  { assets := fun k => if k = [9] then some { dbRec1 with nHeight := 10 } else none
    lastAssets := fun k => if k = [9] then some dbRec1 else none
    isLocks := fun k => k = [9]
    assetHist := [111], aliasHist := [111] }

/-- Store with the asset settled at height 5 by transaction 111 under an
unresolved settlement lock, retaining a previous version (transaction 77). -/
def db3b : AssetDB :=
  { assets := fun k => if k = [9] then some dbRec1 else none
    lastAssets := fun k =>
      if k = [9] then some { dbRec1 with txHash := 77, vchPubData := [6] }
      else none
    isLocks := fun k => k = [9]
    assetHist := [111], aliasHist := [111] }

/-! ## Helper lemmas -/

theorem parseVch_serVch (v rest : List Nat) :
    parseVch (serVch v ++ rest) = some (v, rest) := by
  simp [parseVch, serVch, List.take_left, List.drop_left]

theorem parseAsset_serialize (r : CAsset) :
    ParseAsset (SerializeAsset r) = some (r, []) := by
  simp [ParseAsset, SerializeAsset, List.append_assoc, parseVch_serVch,
    parseNatFld]

theorem decodeArgsLoop_all_push (rest : List ScriptTok) :
    ∀ acc, (∀ t ∈ rest, t.code ≤ OP_PUSHDATA4) →
      decodeArgsLoop rest acc = none := by
  induction rest with
  | nil => intro acc _; rfl
  | cons t r ih =>
      intro acc hall
      have ht : t.code ≤ OP_PUSHDATA4 := hall t (by simp)
      have hnd : ¬ (t.code = OP_DROP ∨ t.code = OP_2DROP) := by
        simp only [OP_DROP, OP_2DROP, OP_PUSHDATA4] at ht ⊢
        omega
      simp only [decodeArgsLoop, if_neg hnd, if_pos ht]
      exact ih _ (fun u hu => hall u (by simp [hu]))

/-! ## Claim theorems -/

/-- Claim C6: for every asset record `r` and any payload hash function,
deserializing the canonical serialization of `r` together with the hash of
that serialization succeeds and returns `r`:
`deserialize(serialize(r), hash(serialize(r))) = r`. -/
theorem C6_serialize_roundtrip (hashFn : List Nat → List Nat) (r : CAsset) :
    UnserializeFromData hashFn (SerializeAsset r)
      (hashFn (SerializeAsset r)) = some r := by
  simp [UnserializeFromData, parseAsset_serialize]

/-- Claim C5: the derived expiration of a stored asset record equals the
owning alias's unprunable-expiration time when the identity registry holds a
non-null one, and otherwise equals current median time plus one tick; and
`GetAsset` reports the record absent whenever current median time is at or
past that derived expiration, even though the record is still stored. -/
theorem C5_expiration_policy (env : ChainEnv) (a : CAsset) (t : Nat) :
    (env.aliasUnprunable a.vchAlias = some t → GetAssetExpiration env a = t) ∧
    (env.aliasUnprunable a.vchAlias = none →
      GetAssetExpiration env a = env.medianTimePast + 1) ∧
    (∀ (db : AssetDB) (id : List Nat) (r : CAsset),
      db.assets id = some r →
      env.medianTimePast ≥ GetAssetExpiration env r →
      GetAsset env db id = none) := by
  refine ⟨fun h => ?_, fun h => ?_, fun db id r hr hexp => ?_⟩
  · simp [GetAssetExpiration, h]
  · simp [GetAssetExpiration, h]
  · simp [GetAsset, hr, if_pos hexp]

/-- Witness for C5 at a concrete registry, record and store. -/
theorem C5_expiration_policy_witness :
    GetAssetExpiration env1 dbRec1 = 1000 ∧
    GetAssetExpiration env1 { payloadA with vchAlias := [3] } = 101 ∧
    GetAsset { env1 with medianTimePast := 1000 } db1 [9] = none := by
  refine ⟨(C5_expiration_policy env1 dbRec1 1000).1 (by decide),
    ?_, ?_⟩
  · have h := (C5_expiration_policy env1
      { payloadA with vchAlias := [3] } 0).2.1 (by decide)
    simpa [env1] using h
  · exact (C5_expiration_policy { env1 with medianTimePast := 1000 }
      dbRec1 1000).2.2 db1 [9] dbRec1 (by decide) (by decide)

/-- Claim C9: script decoding reports "not this protocol" (`none`), and
never fails in any other way (the embedding is a total function), when the
first token is not a small-integer push decoding to the asset protocol tag,
when the second token is not a small-integer push decoding to one of the
activate/mint/update/transfer sub-operations, or when the pushed argument
tokens are not followed by a drop-opcode terminator. -/
theorem C9_decode_malformed :
    (∀ (t : ScriptTok) (rest : List ScriptTok),
      (t.code < OP_1 ∨ OP_16 < t.code ∨ decodeOP_N t.code ≠ OP_SYSCOIN_ASSET) →
      DecodeAssetScript (t :: rest) = none) ∧
    (∀ (t1 t2 : ScriptTok) (rest : List ScriptTok),
      OP_1 ≤ t1.code → t1.code ≤ OP_16 → decodeOP_N t1.code = OP_SYSCOIN_ASSET →
      (t2.code < OP_1 ∨ OP_16 < t2.code ∨
        IsAssetOp (decodeOP_N t2.code) = false) →
      DecodeAssetScript (t1 :: t2 :: rest) = none) ∧
    (∀ (t1 t2 : ScriptTok) (rest : List ScriptTok),
      OP_1 ≤ t1.code → t1.code ≤ OP_16 → decodeOP_N t1.code = OP_SYSCOIN_ASSET →
      OP_1 ≤ t2.code → t2.code ≤ OP_16 →
      (∀ t ∈ rest, t.code ≤ OP_PUSHDATA4) →
      DecodeAssetScript (t1 :: t2 :: rest) = none) := by
  refine ⟨fun t rest h => ?_, fun t1 t2 rest h1 h2 h3 h => ?_,
    fun t1 t2 rest h1 h2 h3 h4 h5 hall => ?_⟩
  · rcases h with h | h | h
    · simp [DecodeAssetScript, h]
    · simp [DecodeAssetScript, h]
    · by_cases hlo : t.code < OP_1
      · simp [DecodeAssetScript, hlo]
      · by_cases hhi : OP_16 < t.code
        · simp [DecodeAssetScript, hhi]
        · simp [DecodeAssetScript, hlo, hhi, h]
  · have hn1 : ¬ (t1.code < OP_1 ∨ OP_16 < t1.code) := by omega
    rcases h with h | h | h
    · simp [DecodeAssetScript, hn1, h3, h]
    · simp [DecodeAssetScript, hn1, h3, h]
    · by_cases hlo : t2.code < OP_1
      · simp [DecodeAssetScript, hn1, h3, hlo]
      · by_cases hhi : OP_16 < t2.code
        · simp [DecodeAssetScript, hn1, h3, hhi]
        · simp [DecodeAssetScript, hn1, h3, hlo, hhi, h]
  · have hn1 : ¬ (t1.code < OP_1 ∨ OP_16 < t1.code) := by omega
    have hn2 : ¬ (t2.code < OP_1 ∨ OP_16 < t2.code) := by omega
    have hloop := decodeArgsLoop_all_push rest [] hall
    by_cases hop : IsAssetOp (decodeOP_N t2.code)
    · simp [DecodeAssetScript, hn1, h3, hn2, hop, hloop]
    · simp [DecodeAssetScript, hn1, h3, hn2, hop]

/-- Witness for C9: concrete malformed scripts (wrong protocol tag, unknown
sub-operation, missing drop terminator) all decode to `none`. -/
theorem C9_decode_malformed_witness :
    DecodeAssetScript [⟨20, []⟩, ⟨84, []⟩] = none ∧
    DecodeAssetScript [⟨86, []⟩, ⟨85, []⟩, ⟨5, [1]⟩, ⟨OP_DROP, []⟩] = none ∧
    DecodeAssetScript [⟨86, []⟩, ⟨84, []⟩, ⟨5, [1]⟩] = none := by
  refine ⟨C9_decode_malformed.1 ⟨20, []⟩ _ (by decide),
    C9_decode_malformed.2.1 ⟨86, []⟩ ⟨85, []⟩ _ (by decide) (by decide)
      (by decide) (by decide),
    C9_decode_malformed.2.2 ⟨86, []⟩ ⟨84, []⟩ _ (by decide) (by decide)
      (by decide) (by decide) (by decide) (by decide)⟩

/-- Claim C1 (evaluation at the failing input): a transfer of asset `[9]`,
currently owned by alias `[1]`, to alias `[2]` which exists and accepts
asset transfers, is reported as a soft business failure (error 2026,
"asset owner must sign off") and the store is left unchanged — ownership
never becomes `[2]` — because the validator rewrites the record's owner to
the link alias before running the uniform owner comparison. -/
theorem C1_transfer_never_changes_owner :
    CheckAssetInputs env1 db1 tx1 OP_ASSET_TRANSFER [[0]] [[1]]
      false 10 false = (CheckResult.softErr 2026, db1) := rfl

/-- Claim C2 counterexample: a strict-mode (`fJustCheck`) validation whose
script-carried commitment hash (`[1]`) differs from the hash of the
auxiliary payload (`[0]`) is NOT rejected outright — the validator reports
error 2003 but returns acceptance (a soft failure) with the store
unchanged, contradicting the claim that the mismatch is consensus-fatal. -/
theorem C2_hash_mismatch_not_fatal :
    CheckAssetInputs env1 db0 txA OP_ASSET_ACTIVATE [[1]] [[1]]
      true 10 false = (CheckResult.softErr 2003, db0) := rfl

/-- Claim C2 (amended): in strict mode, a script-carried commitment hash
that differs from the hash recomputed over the auxiliary payload makes the
validator report error 2003 and accept the transaction with no asset state
change (a soft failure), not reject it outright. -/
theorem C2_hash_mismatch_soft (env : ChainEnv) (db : AssetDB)
    (tx : CTransaction) (op : Nat) (harg : List Nat)
    (vvchAliasArgs : List (List Nat))
    (nHeight : Nat) (dontaddtodb : Bool) (d h : List Nat) (a : CAsset)
    (hver : tx.nVersion = SYSCOIN_TX_VERSION)
    (hdata : tx.syscoinData = some (d, h))
    (hparse : UnserializeFromData env.hashFn d h = some a)
    (hne : h ≠ harg) :
    CheckAssetInputs env db tx op [harg] vvchAliasArgs true nHeight
      dontaddtodb = (CheckResult.softErr 2003, db) := by
  simp [CheckAssetInputs, CheckAssetChecksStage, hver, hdata, hparse, hne]

/-- Witness for C2 (amended) at a concrete mismatching argument vector. -/
theorem C2_hash_mismatch_soft_witness :
    CheckAssetInputs env1 db0 txA OP_ASSET_ACTIVATE [[2]] [[1]]
      true 10 false = (CheckResult.softErr 2003, db0) :=
  C2_hash_mismatch_soft env1 db0 txA OP_ASSET_ACTIVATE [2] [[1]] 10 false
    (SerializeAsset payloadA) [0] payloadA rfl rfl rfl (by decide)

/-- Claim C7 counterexample: a strict-mode activate whose record has an
empty name is rejected with `return error(...)` (consensus-fatal result,
error 2012) — the containing transaction does NOT remain valid,
contradicting the claim that this is a soft business-rule failure. -/
theorem C7_empty_name_fatal_eval :
    CheckAssetInputs env1 db1 txBad OP_ASSET_ACTIVATE [[0]] [[1]]
      true 10 false = (CheckResult.fatal 2012, db1) := rfl

/-- Claim C7 (amended): a strict-mode activate whose supplied record has an
empty name, or a name exceeding the id length bound, is a consensus-fatal
(hard) failure: the operation is rejected, the containing transaction is
rejected with it, and no asset state is written. -/
theorem C7_activate_bad_name_fatal (env : ChainEnv) (db : AssetDB)
    (tx : CTransaction) (vvchAliasArgs : List (List Nat)) (nHeight : Nat)
    (dontaddtodb : Bool) (d h : List Nat) (a : CAsset)
    (hver : tx.nVersion = SYSCOIN_TX_VERSION)
    (hdata : tx.syscoinData = some (d, h))
    (hparse : UnserializeFromData env.hashFn d h = some a)
    (halias : a.vchAlias = vvchAliasArgs.getD 0 [])
    (hcat : a.sCategory.length ≤ MAX_NAME_LENGTH)
    (hpub : a.vchPubData.length ≤ MAX_VALUE_LENGTH)
    (hlink : a.vchLinkAlias = [])
    (hbad : a.vchName = [] ∨ MAX_ID_LENGTH < a.vchName.length) :
    CheckAssetInputs env db tx OP_ASSET_ACTIVATE [h] vvchAliasArgs
      true nHeight dontaddtodb = (CheckResult.fatal 2012, db) := by
  have hc : ¬ (MAX_NAME_LENGTH < a.sCategory.length) := by omega
  have hp : ¬ (MAX_VALUE_LENGTH < a.vchPubData.length) := by omega
  rcases hbad with hb | hb <;>
    simp [CheckAssetInputs, CheckAssetChecksStage, hver, hdata, hparse,
      halias, hc, hp, hlink, hb]

/-- Witness for C7 (amended) at a concrete oversized name. -/
theorem C7_activate_bad_name_fatal_witness :
    CheckAssetInputs env1 db1
      { txBad with
        syscoinData :=
          some (SerializeAsset { payloadBad with vchName := List.replicate 21 1 },
            [0]) }
      OP_ASSET_ACTIVATE [[0]] [[1]] true 10 false
      = (CheckResult.fatal 2012, db1) :=
  C7_activate_bad_name_fatal env1 db1 _ [[1]] 10 false
    (SerializeAsset { payloadBad with vchName := List.replicate 21 1 }) [0]
    { payloadBad with vchName := List.replicate 21 1 }
    rfl rfl (by decide) rfl (by decide) (by decide) rfl (by decide)

/-- Claim C4: when the store holds a readable (unexpired) record settled at
height `h1` and an update or transfer for the same id is validated at a
strictly lower height, the validator reports error 2026 as a soft failure
(the transaction stays valid) and the store is left unchanged — in every
mode (strict or block-connect, locked or not). -/
theorem C4_lower_height_rejected (env : ChainEnv) (db : AssetDB)
    (tx : CTransaction) (op : Nat) (vvchAliasArgs : List (List Nat))
    (fJustCheck : Bool) (nHeight : Nat) (dontaddtodb : Bool)
    (d h : List Nat) (a dbA : CAsset)
    (hcb : tx.isCoinBase = false)
    (hver : tx.nVersion = SYSCOIN_TX_VERSION)
    (hdata : tx.syscoinData = some (d, h))
    (hparse : UnserializeFromData env.hashFn d h = some a)
    (halias : a.vchAlias = vvchAliasArgs.getD 0 [])
    (hname : a.vchName = [])
    (hcat : a.sCategory = [])
    (hpub : a.vchPubData.length ≤ MAX_VALUE_LENGTH)
    (hop : op = OP_ASSET_UPDATE ∨ op = OP_ASSET_TRANSFER)
    (hget : GetAsset env db a.vchAsset = some dbA)
    (hlow : nHeight < dbA.nHeight) :
    CheckAssetInputs env db tx op [h] vvchAliasArgs fJustCheck nHeight
      dontaddtodb = (CheckResult.softErr 2026, db) := by
  have hp : ¬ (MAX_VALUE_LENGTH < a.vchPubData.length) := by omega
  have hge : nHeight ≤ dbA.nHeight := Nat.le_of_lt hlow
  rcases hop with hop | hop <;> subst hop <;>
    rcases Bool.eq_false_or_eq_true (db.isLocks a.vchAsset) with hl | hl <;>
    rcases Bool.eq_false_or_eq_true fJustCheck with hj | hj <;>
    subst hj <;>
    simp [CheckAssetInputs, CheckAssetChecksStage, CheckAssetDbStage, hcb,
      hver, hdata, hparse, halias, hname, hcat, hp, hget, hl, hge, hlow,
      OP_ASSET_UPDATE, OP_ASSET_TRANSFER, OP_ASSET_ACTIVATE]

/-- Witness for C4: an update at height 3 against a record settled at
height 5 is soft-rejected with the store untouched. -/
theorem C4_lower_height_rejected_witness :
    CheckAssetInputs env1 db1 txU OP_ASSET_UPDATE [[0]] [[1]]
      false 3 false = (CheckResult.softErr 2026, db1) :=
  C4_lower_height_rejected env1 db1 txU OP_ASSET_UPDATE [[1]] false 3 false
    (SerializeAsset payloadU) [0] payloadU dbRec1 rfl rfl rfl rfl rfl rfl rfl
    (by decide) (Or.inl rfl) rfl (by decide)

/-- Claim C8: an accepted update carries forward the stored public data
when the supplied field is empty, the stored category when the supplied
field is empty, always carries forward the stored name, and stamps the
persisted record with the validating transaction's height and hash. -/
theorem C8_update_carry_forward (env : ChainEnv) (db : AssetDB)
    (tx : CTransaction) (vvchAliasArgs : List (List Nat)) (nHeight : Nat)
    (d h : List Nat) (a dbA : CAsset)
    (hcb : tx.isCoinBase = false)
    (hver : tx.nVersion = SYSCOIN_TX_VERSION)
    (hdata : tx.syscoinData = some (d, h))
    (hparse : UnserializeFromData env.hashFn d h = some a)
    (halias : a.vchAlias = vvchAliasArgs.getD 0 [])
    (hget : GetAsset env db a.vchAsset = some dbA)
    (hlock : db.isLocks a.vchAsset = false)
    (hh : dbA.nHeight ≤ nHeight)
    (howner : dbA.vchAlias = a.vchAlias) :
    (CheckAssetInputs env db tx OP_ASSET_UPDATE [h] vvchAliasArgs
        false nHeight false).1
      = CheckResult.applied
          { vchAsset := a.vchAsset
            vchName := dbA.vchName
            vchPubData :=
              if a.vchPubData = [] then dbA.vchPubData else a.vchPubData
            sCategory :=
              if a.sCategory = [] then dbA.sCategory else a.sCategory
            vchAlias := a.vchAlias
            vchLinkAlias := []
            nHeight := nHeight
            txHash := tx.txHash } ∧
    (CheckAssetInputs env db tx OP_ASSET_UPDATE [h] vvchAliasArgs
        false nHeight false).2.assets a.vchAsset
      = some
          { vchAsset := a.vchAsset
            vchName := dbA.vchName
            vchPubData :=
              if a.vchPubData = [] then dbA.vchPubData else a.vchPubData
            sCategory :=
              if a.sCategory = [] then dbA.sCategory else a.sCategory
            vchAlias := a.vchAlias
            vchLinkAlias := []
            nHeight := nHeight
            txHash := tx.txHash } := by
  have hnl : ¬ (nHeight < dbA.nHeight) := by omega
  constructor <;>
    simp [CheckAssetInputs, CheckAssetChecksStage, CheckAssetDbStage,
      CheckAssetPostDb, AssetFixup, FinishAsset, WriteAsset, hcb, hver,
      hdata, hparse, halias, hget, hlock, hnl, howner,
      OP_ASSET_UPDATE, OP_ASSET_ACTIVATE, OP_ASSET_TRANSFER]

/-- Witness for C8: the concrete update `txU` (empty category, new public
data `[42]`) against the stored `dbRec1`. -/
theorem C8_update_carry_forward_witness :
    (CheckAssetInputs env1 db1 txU OP_ASSET_UPDATE [[0]] [[1]]
        false 10 false).1
      = CheckResult.applied
          { vchAsset := payloadU.vchAsset
            vchName := dbRec1.vchName
            vchPubData :=
              if payloadU.vchPubData = [] then dbRec1.vchPubData
              else payloadU.vchPubData
            sCategory :=
              if payloadU.sCategory = [] then dbRec1.sCategory
              else payloadU.sCategory
            vchAlias := payloadU.vchAlias
            vchLinkAlias := []
            nHeight := 10
            txHash := txU.txHash } ∧
    (CheckAssetInputs env1 db1 txU OP_ASSET_UPDATE [[0]] [[1]]
        false 10 false).2.assets payloadU.vchAsset
      = some
          { vchAsset := payloadU.vchAsset
            vchName := dbRec1.vchName
            vchPubData :=
              if payloadU.vchPubData = [] then dbRec1.vchPubData
              else payloadU.vchPubData
            sCategory :=
              if payloadU.sCategory = [] then dbRec1.sCategory
              else payloadU.sCategory
            vchAlias := payloadU.vchAlias
            vchLinkAlias := []
            nHeight := 10
            txHash := txU.txHash } :=
  C8_update_carry_forward env1 db1 txU [[1]] 10
    (SerializeAsset payloadU) [0] payloadU dbRec1
    rfl rfl rfl rfl rfl (by decide) (by decide) (by decide) (by decide)

/-- Claim C3 counterexample: a candidate (update `txU`, hash 333, height
10) arriving at a height EQUAL to the stored record's height (10) while an
unresolved settlement lock for the id references a different transaction
(111) does NOT trigger the reconciliation procedure: the validator
soft-rejects with error 2026 and the store — lock included — is left
completely unchanged. -/
theorem C3_equal_height_no_reconciliation :
    CheckAssetInputs env1 db3 txU OP_ASSET_UPDATE [[0]] [[1]]
      false 10 false = (CheckResult.softErr 2026, db3) := rfl

/-- Claim C3 (amended): the reconciliation procedure runs when a candidate
arrives at a height STRICTLY GREATER than the stored record's height while
an unresolved settlement lock exists for the id (a candidate at equal or
lower height is soft-rejected): if the stored record's transaction hash
differs from the candidate's, the lock is cleared, history entries for the
superseded transaction are purged, and validation continues from the
retained previous-version snapshot (or a cleared record if none exists —
after which only activation can pass the owner check); if the hashes
match, the candidate is accepted idempotently as a no-op and a
before-value snapshot of the stored record is persisted with the lock
cleared. -/
theorem C3_reconciliation (env : ChainEnv) (db : AssetDB)
    (tx : CTransaction) (op : Nat) (vvchAliasArgs : List (List Nat))
    (nHeight : Nat) (d h : List Nat) (a dbA : CAsset)
    (hcb : tx.isCoinBase = false)
    (hver : tx.nVersion = SYSCOIN_TX_VERSION)
    (hdata : tx.syscoinData = some (d, h))
    (hparse : UnserializeFromData env.hashFn d h = some a)
    (halias : a.vchAlias = vvchAliasArgs.getD 0 [])
    (hget : GetAsset env db a.vchAsset = some dbA)
    (hlock : db.isLocks a.vchAsset = true)
    (hlt : dbA.nHeight < nHeight) :
    (dbA.txHash ≠ tx.txHash →
      CheckAssetInputs env db tx op [h] vvchAliasArgs false nHeight false
        = CheckAssetPostDb env
            { db with
              isLocks := fun k =>
                if k = a.vchAsset then false else db.isLocks k
              aliasHist := db.aliasHist.filter (fun x => x ≠ dbA.txHash)
              assetHist := db.assetHist.filter (fun x => x ≠ dbA.txHash) }
            tx op false nHeight false a
            (if op ≠ OP_ASSET_ACTIVATE then
              (db.lastAssets a.vchAsset).getD nullAsset
            else dbA)) ∧
    (dbA.txHash = tx.txHash →
      CheckAssetInputs env db tx op [h] vvchAliasArgs false nHeight false
        = (CheckResult.idempotent,
            { db with
              lastAssets := fun k =>
                if k = a.vchAsset then some dbA else db.lastAssets k
              isLocks := fun k =>
                if k = a.vchAsset then false else db.isLocks k })) := by
  have hnge : ¬ (nHeight ≤ dbA.nHeight) := by omega
  constructor
  · intro hne
    simp [CheckAssetInputs, CheckAssetChecksStage, CheckAssetDbStage, hcb,
      hver, hdata, hparse, halias, hget, hlock, hnge, hne]
  · intro heq
    simp [CheckAssetInputs, CheckAssetChecksStage, CheckAssetDbStage, hcb,
      hver, hdata, hparse, halias, hget, hlock, hnge, heq]

/-- Witness for C3 (amended), mismatch side: stored height 5 < candidate
height 10 under a lock referencing transaction 111 ≠ candidate 333 — the
validator proceeds through the reconciliation continuation on the
lock-cleared, history-purged store with the rolled-back previous
version. -/
theorem C3_reconciliation_witness :
    CheckAssetInputs env1 db3b txU OP_ASSET_UPDATE [[0]] [[1]]
        false 10 false
      = CheckAssetPostDb env1
          { db3b with
            isLocks := fun k =>
              if k = payloadU.vchAsset then false else db3b.isLocks k
            aliasHist := db3b.aliasHist.filter (fun x => x ≠ dbRec1.txHash)
            assetHist := db3b.assetHist.filter (fun x => x ≠ dbRec1.txHash) }
          txU OP_ASSET_UPDATE false 10 false payloadU
          (if OP_ASSET_UPDATE ≠ OP_ASSET_ACTIVATE then
            (db3b.lastAssets payloadU.vchAsset).getD nullAsset
          else dbRec1) :=
  (C3_reconciliation env1 db3b txU OP_ASSET_UPDATE [[1]] 10
    (SerializeAsset payloadU) [0] payloadU dbRec1
    rfl rfl rfl rfl rfl (by decide) (by decide) (by decide)).1 (by decide)


/-- Inversion: a business failure produced by the record-fixup stage is
always a soft error. -/
theorem assetFixup_inl {env : ChainEnv} {db : AssetDB} {op : Nat} {f : Bool}
    {tA dbA : CAsset} {r : CheckResult}
    (h : AssetFixup env db op f tA dbA = Sum.inl r) :
    ∃ c, r = CheckResult.softErr c := by
  unfold AssetFixup at h
  split at h
  · split at h
    · rename_i r1 heq
      split at heq
      · split at heq
        · cases heq; cases h; exact ⟨_, rfl⟩
        · split at heq
          · cases heq; cases h; exact ⟨_, rfl⟩
          · simp_all
      · simp_all
    · split at h
      · cases h; exact ⟨_, rfl⟩
      · simp_all
  · split at h
    · split at h
      · split at h
        · simp_all
        · cases h; exact ⟨_, rfl⟩
      · simp_all
    · simp_all

/-- Inversion: an `applied` outcome of the post-store stage carries a
record with the link alias cleared and the height and transaction hash
stamped, and (unless writes are disabled) that record is what the store
holds for its id. -/
theorem postdb_applied {env : ChainEnv} {db : AssetDB} {tx : CTransaction}
    {op : Nat} {f : Bool} {nH : Nat} {dna : Bool} {tA dbA : CAsset}
    {r' : CAsset} {db' : AssetDB}
    (h : CheckAssetPostDb env db tx op f nH dna tA dbA
      = (CheckResult.applied r', db')) :
    r'.vchLinkAlias = [] ∧ r'.nHeight = nH ∧ r'.txHash = tx.txHash ∧
      (dna = false → db'.assets r'.vchAsset = some r') := by
  unfold CheckAssetPostDb at h
  cases hfix : AssetFixup env db op f tA dbA with
  | inl r =>
      rw [hfix] at h
      obtain ⟨c, rfl⟩ := assetFixup_inl hfix
      simp at h
  | inr a2 =>
      rw [hfix] at h
      unfold FinishAsset at h
      simp only [Prod.mk.injEq, CheckResult.applied.injEq] at h
      obtain ⟨h1, h2⟩ := h
      subst h1
      refine ⟨rfl, rfl, rfl, ?_⟩
      intro hdna
      subst hdna
      simp only [Bool.false_eq_true, if_false] at h2
      subst h2
      simp [WriteAsset]

/-- Inversion through the store/lock stage. -/
theorem dbstage_applied {env : ChainEnv} {db : AssetDB} {tx : CTransaction}
    {op : Nat} {f : Bool} {nH : Nat} {dna : Bool} {tA : CAsset}
    {r' : CAsset} {db' : AssetDB}
    (h : CheckAssetDbStage env db tx op f nH dna tA
      = (CheckResult.applied r', db')) :
    r'.vchLinkAlias = [] ∧ r'.nHeight = nH ∧ r'.txHash = tx.txHash ∧
      (dna = false → db'.assets r'.vchAsset = some r') := by
  unfold CheckAssetDbStage at h
  split at h
  · split at h
    · simp_all
    · exact postdb_applied h
  · split at h
    · split at h
      · simp_all
      · split at h
        · exact postdb_applied h
        · simp_all
    · split at h
      · simp_all
      · exact postdb_applied h

/-- Inversion through the strict-mode checks stage. -/
theorem checksstage_applied {env : ChainEnv} {db : AssetDB}
    {tx : CTransaction} {op : Nat} {vvchArgs vvchAliasArgs : List (List Nat)}
    {f : Bool} {nH : Nat} {dna : Bool} {tA : CAsset} {vchHash : List Nat}
    {r' : CAsset} {db' : AssetDB}
    (h : CheckAssetChecksStage env db tx op vvchArgs vvchAliasArgs f nH dna
      tA vchHash = (CheckResult.applied r', db')) :
    r'.vchLinkAlias = [] ∧ r'.nHeight = nH ∧ r'.txHash = tx.txHash ∧
      (dna = false → db'.assets r'.vchAsset = some r') := by
  unfold CheckAssetChecksStage at h
  by_cases h1 : f = true ∧ vvchArgs.length ≠ 1
  · rw [if_pos h1] at h; simp at h
  rw [if_neg h1] at h
  by_cases h2 : f = true ∧ vchHash ≠ vvchArgs.getD 0 []
  · rw [if_pos h2] at h; simp at h
  rw [if_neg h2] at h
  by_cases h3 : tA.vchAlias ≠ vvchAliasArgs.getD 0 []
  · rw [if_pos h3] at h
    by_cases hf : f = true
    · rw [if_pos hf] at h; simp at h
    rw [if_neg hf] at h; simp at h
  rw [if_neg h3] at h
  by_cases h4 : f = true ∧ tA.sCategory.length > MAX_NAME_LENGTH
  · rw [if_pos h4] at h; simp at h
  rw [if_neg h4] at h
  by_cases h5 : f = true ∧ tA.vchPubData.length > MAX_VALUE_LENGTH
  · rw [if_pos h5] at h; simp at h
  rw [if_neg h5] at h
  by_cases h6 : f = true ∧ op = OP_ASSET_ACTIVATE ∧ tA.vchLinkAlias ≠ []
  · rw [if_pos h6] at h; simp at h
  rw [if_neg h6] at h
  by_cases h7 : f = true ∧ op = OP_ASSET_ACTIVATE ∧
    (tA.vchName.length > MAX_ID_LENGTH ∨ tA.vchName = [])
  · rw [if_pos h7] at h; simp at h
  rw [if_neg h7] at h
  by_cases h8 : f = true ∧ op = OP_ASSET_ACTIVATE ∧
    ¬ (startsWithAssets tA.sCategory = true)
  · rw [if_pos h8] at h; simp at h
  rw [if_neg h8] at h
  by_cases h9 : f = true ∧ op = OP_ASSET_UPDATE ∧ tA.vchName ≠ []
  · rw [if_pos h9] at h; simp at h
  rw [if_neg h9] at h
  by_cases h10 : f = true ∧ op = OP_ASSET_UPDATE ∧
    0 < tA.sCategory.length ∧ ¬ (istartsWithAssets tA.sCategory = true)
  · rw [if_pos h10] at h; simp at h
  rw [if_neg h10] at h
  by_cases h11 : f = true ∧ op ≠ OP_ASSET_ACTIVATE ∧
    op ≠ OP_ASSET_UPDATE ∧ op ≠ OP_ASSET_TRANSFER
  · rw [if_pos h11] at h; simp at h
  rw [if_neg h11] at h
  exact dbstage_applied h

/-- Claim C10: every operation accepted by the validator — activate,
update and transfer alike — produces a record with the transient
link-alias field cleared and the height and transaction-hash fields set to
the validating transaction's height and hash, and (when writes are
enabled) exactly that stamped record is what the store write persists. -/
theorem C10_applied_always_stamped {env : ChainEnv} {db : AssetDB}
    {tx : CTransaction} {op : Nat} {vvchArgs vvchAliasArgs : List (List Nat)}
    {fJustCheck : Bool} {nHeight : Nat} {dontaddtodb : Bool}
    {r' : CAsset} {db' : AssetDB}
    (h : CheckAssetInputs env db tx op vvchArgs vvchAliasArgs fJustCheck
      nHeight dontaddtodb = (CheckResult.applied r', db')) :
    r'.vchLinkAlias = [] ∧ r'.nHeight = nHeight ∧ r'.txHash = tx.txHash ∧
      (dontaddtodb = false → db'.assets r'.vchAsset = some r') := by
  unfold CheckAssetInputs at h
  repeat' split at h
  all_goals first
    | exact checksstage_applied h
    | simp_all


/-- Witness for C10: a concrete accepted activate at height 12 stores the
payload with the link alias cleared and height/hash stamped. -/
theorem C10_applied_always_stamped_witness :
    (CheckAssetInputs env1 db0 txA OP_ASSET_ACTIVATE [[0]] [[1]] false 12
        false).2.assets [8]
      = some { vchAsset := [8], vchName := [3], vchPubData := [],
               sCategory := assetsLit, vchAlias := [1], vchLinkAlias := [],
               nHeight := 12, txHash := 444 } :=
  (C10_applied_always_stamped
    (rfl :
      CheckAssetInputs env1 db0 txA OP_ASSET_ACTIVATE [[0]] [[1]] false 12
          false
        = (CheckResult.applied
            { vchAsset := [8], vchName := [3], vchPubData := [],
              sCategory := assetsLit, vchAlias := [1], vchLinkAlias := [],
              nHeight := 12, txHash := 444 },
           (CheckAssetInputs env1 db0 txA OP_ASSET_ACTIVATE [[0]] [[1]]
             false 12 false).2))).2.2.2 rfl

end SyscoinAsset
